import Mathlib

/-!
Verification of `scylla/src/response/request_response.rs`: classification of a
decoded wire response into error / non-error, extraction of result subtypes,
assembly of a `QueryResult` together with its pagination cursor, and the
unpaged-path guard that rejects a nonfinished paging state.

Types coming from the `scylla-cql` frame layer (response enums, paging state,
`QueryResult` constructors) are not part of the sources here; they are
modelled from the spec, with a doc comment saying so on each such definition.
-/

namespace ScyllaRR

/-- Opaque byte payload (`bytes::Bytes`), modelled as a list of byte values. -/
abbrev Bytes := List Nat

/-- Tracing id (`uuid::Uuid`), modelled as an opaque number. -/
abbrev Uuid := Nat

/-- Modelled from the spec: the pagination cursor `PagingStateResponse` from
the frame layer is a tagged union with `HasMorePages(opaque continuation
token)` and `NoMorePages`. -/
inductive PagingStateResponse where
  | HasMorePages (token : Bytes)
  | NoMorePages
deriving DecidableEq, Repr

/-- Modelled from the spec: `PagingStateResponse::finished` — "Finished" means
`NoMorePages`. -/
def PagingStateResponse.finished : PagingStateResponse → Bool
  | .NoMorePages => true
  | .HasMorePages _ => false

/-- Modelled from the spec: payload of a `Result::SetKeyspace` notification
(the active keyspace changed), kept opaque. -/
structure SetKeyspace where
  keyspace_name : String
deriving DecidableEq, Repr

/-- Modelled from the spec: payload of a `Result::SchemaChange` notification
(server-pushed DDL change), kept opaque. -/
structure SchemaChange where
  event : String
deriving DecidableEq, Repr

/-- Modelled from the spec: the raw, not-yet-deserialized row set of a
`Result::Rows` response, kept opaque. -/
structure RawRows where
  raw : Bytes
deriving DecidableEq, Repr

/-- Modelled from the spec: payload of the `Authenticate` handshake response. -/
structure Authenticate where
  authenticator_name : String
deriving DecidableEq, Repr

/-- Modelled from the spec: payload of the `AuthChallenge` handshake response. -/
structure AuthChallenge where
  authenticate_message : Bytes
deriving DecidableEq, Repr

/-- Modelled from the spec: payload of the `AuthSuccess` handshake response. -/
structure AuthSuccess where
  success_message : Bytes
deriving DecidableEq, Repr

/-- Modelled from the spec: the frame layer's `Result` subtypes —
`Rows(row set, pagination cursor)`, `SetKeyspace`, `SchemaChange`, and the
other void/ack variants (`Void`, `Prepared`). -/
inductive ResultWithDeserializedMetadata where
  | Rows (p : RawRows × PagingStateResponse)
  | SetKeyspace (sk : SetKeyspace)
  | SchemaChange (sc : SchemaChange)
  | Void
  | Prepared (payload : Bytes)
deriving DecidableEq, Repr

/-- Modelled from the spec: the frame layer's non-error response union — the
`Result` kind plus every other protocol response kind not valid as a query
reply (handshake and event responses). -/
inductive NonErrorResponseWithDeserializedMetadata where
  | Ready
  | Result (r : ResultWithDeserializedMetadata)
  | Authenticate (a : Authenticate)
  | AuthSuccess (p : AuthSuccess)
  | AuthChallenge (p : AuthChallenge)
  | Supported (opts : List (String × List String))
  | Event (e : String)
deriving DecidableEq, Repr

/-- Modelled from the spec: the wire response kinds, used as the payload of an
`UnexpectedResponse` failure. -/
inductive CqlResponseKind where
  | Ready
  | Result
  | Authenticate
  | AuthSuccess
  | AuthChallenge
  | Supported
  | Event
deriving DecidableEq, Repr

/-- Modelled from the spec: `to_response_kind` reports the observed wire kind
of a non-error response. -/
def NonErrorResponseWithDeserializedMetadata.to_response_kind :
    NonErrorResponseWithDeserializedMetadata → CqlResponseKind
  | .Ready => .Ready
  | .Result _ => .Result
  | .Authenticate _ => .Authenticate
  | .AuthSuccess _ => .AuthSuccess
  | .AuthChallenge _ => .AuthChallenge
  | .Supported _ => .Supported
  | .Event _ => .Event

/-- Modelled from the spec: the server's error payload, carrying the
server-reported error code and message. -/
structure CqlServerError where
  code : Nat
  message : String
deriving DecidableEq, Repr

/-- Modelled from the spec: the classified response is a tagged union
`{Error(server error payload) | NonError(NonErrorResponse)}`; exactly one tag
holds at any time. -/
inductive ResponseWithDeserializedMetadata where
  | Error (e : CqlServerError)
  | NonError (r : NonErrorResponseWithDeserializedMetadata)
deriving DecidableEq, Repr

/-- Modelled from the spec: the error taxonomy of the core —
`ServerError` (server-reported code and message), `UnexpectedResponse(kind)`
and `NonfinishedPagingState`. -/
inductive RequestAttemptError where
  | ServerError (code : Nat) (message : String)
  | UnexpectedResponse (kind : CqlResponseKind)
  | NonfinishedPagingState
deriving DecidableEq, Repr

/-- Modelled from the spec: the frame-layer conversion
`into_non_error_response` splits the classified response: it fails with a
`ServerError` carrying the server-reported error code and message exactly when
the tag is `Error`, and otherwise yields the non-error response. -/
def ResponseWithDeserializedMetadata.into_non_error_response :
    ResponseWithDeserializedMetadata →
      Except RequestAttemptError NonErrorResponseWithDeserializedMetadata
  | .Error e => .error (.ServerError e.code e.message)
  | .NonError r => .ok r

/-- Modelled from the spec: identity of the cluster node that served the
request, kept opaque. -/
structure Coordinator where
  node : String
deriving DecidableEq, Repr

/-- Modelled from the spec: the final `QueryResult` — optional row set,
optional coordinator identity, optional tracing id, ordered warnings. -/
structure QueryResult where
  raw_metadata_and_rows : Option RawRows
  request_coordinator : Option Coordinator
  tracing_id : Option Uuid
  warnings : List String
deriving DecidableEq, Repr

/-- Modelled from the spec: `QueryResult::new` — default construction requires
a known coordinator. -/
def QueryResult.new (coordinator : Coordinator) (raw : Option RawRows)
    (tracing_id : Option Uuid) (warnings : List String) : QueryResult :=
  { raw_metadata_and_rows := raw
    request_coordinator := some coordinator
    tracing_id := tracing_id
    warnings := warnings }

/-- Modelled from the spec: `QueryResult::new_with_unknown_coordinator` — the
only construction path on which the coordinator is absent. -/
def QueryResult.new_with_unknown_coordinator (raw : Option RawRows)
    (tracing_id : Option Uuid) (warnings : List String) : QueryResult :=
  { raw_metadata_and_rows := raw
    request_coordinator := none
    tracing_id := tracing_id
    warnings := warnings }

/-- The response envelope `QueryResponse` of `request_response.rs`: decoded
response plus tracing id, warnings and an opaque custom payload (the
`HashMap<String, Bytes>` is modelled as an association list). -/
structure QueryResponse where
  response : ResponseWithDeserializedMetadata
  tracing_id : Option Uuid
  warnings : List String
  custom_payload : Option (List (String × Bytes))
deriving DecidableEq, Repr

/-- The `NonErrorQueryResponse` of `request_response.rs`: a query response
whose response can not be `Error`; note there is no custom payload field. -/
structure NonErrorQueryResponse where
  response : NonErrorResponseWithDeserializedMetadata
  tracing_id : Option Uuid
  warnings : List String
deriving DecidableEq, Repr

/-- `QueryResponse::into_non_error_query_response`: classify the envelope,
propagating any error of `into_non_error_response` and otherwise carrying over
the tracing id and warnings. -/
def QueryResponse.into_non_error_query_response (self : QueryResponse) :
    Except RequestAttemptError NonErrorQueryResponse :=
  match self.response.into_non_error_response with
  | .error e => .error e
  | .ok r =>
      .ok { response := r, tracing_id := self.tracing_id, warnings := self.warnings }

/-- `NonErrorQueryResponse::as_set_keyspace`: projection returning the
`SetKeyspace` payload exactly on that variant. -/
def NonErrorQueryResponse.as_set_keyspace (self : NonErrorQueryResponse) :
    Option SetKeyspace :=
  match self.response with
  | .Result (.SetKeyspace sk) => some sk
  | _ => none

/-- `NonErrorQueryResponse::as_schema_change`: projection returning the
`SchemaChange` payload exactly on that variant. -/
def NonErrorQueryResponse.as_schema_change (self : NonErrorQueryResponse) :
    Option SchemaChange :=
  match self.response with
  | .Result (.SchemaChange sc) => some sc
  | _ => none

/-- The private assembler
`into_query_result_and_paging_state_with_maybe_unknown_coordinator`: match the
response into `(raw_rows, paging_state_response)` (failing with
`UnexpectedResponse` on a non-`Result` kind), then build the `QueryResult`
through the constructor selected by the optional coordinator. -/
def NonErrorQueryResponse.into_query_result_and_paging_state_with_maybe_unknown_coordinator
    (self : NonErrorQueryResponse) (request_coordinator : Option Coordinator) :
    Except RequestAttemptError (QueryResult × PagingStateResponse) :=
  match
    (match self.response with
     | .Result (.Rows (rs, paging_state_response)) =>
         Except.ok (some rs, paging_state_response)
     | .Result _ =>
         Except.ok ((none : Option RawRows), PagingStateResponse.NoMorePages)
     | r =>
         Except.error (RequestAttemptError.UnexpectedResponse r.to_response_kind))
  with
  | .error e => .error e
  | .ok (raw_rows, paging_state_response) =>
      .ok
        (match request_coordinator with
         | some coordinator =>
             QueryResult.new coordinator raw_rows self.tracing_id self.warnings
         | none =>
             QueryResult.new_with_unknown_coordinator raw_rows self.tracing_id
               self.warnings,
         paging_state_response)

/-- `NonErrorQueryResponse::into_query_result_and_paging_state`: the public
paged entry point with a known coordinator. -/
def NonErrorQueryResponse.into_query_result_and_paging_state
    (self : NonErrorQueryResponse) (request_coordinator : Coordinator) :
    Except RequestAttemptError (QueryResult × PagingStateResponse) :=
  self.into_query_result_and_paging_state_with_maybe_unknown_coordinator
    (some request_coordinator)

/-- The private unpaged assembler
`into_query_result_with_maybe_unknown_coordinator`: run the paged assembler,
then fail with `NonfinishedPagingState` when the paging state is not finished
(the Rust code additionally logs at error severity, a side effect not
modelled). -/
def NonErrorQueryResponse.into_query_result_with_maybe_unknown_coordinator
    (self : NonErrorQueryResponse) (request_coordinator : Option Coordinator) :
    Except RequestAttemptError QueryResult :=
  match
    self.into_query_result_and_paging_state_with_maybe_unknown_coordinator
      request_coordinator
  with
  | .error e => .error e
  | .ok (result, paging_state) =>
      if !paging_state.finished then
        .error RequestAttemptError.NonfinishedPagingState
      else
        .ok result

/-- `NonErrorQueryResponse::into_query_result`: the public unpaged entry point
with a known coordinator. -/
def NonErrorQueryResponse.into_query_result (self : NonErrorQueryResponse)
    (request_coordinator : Coordinator) :
    Except RequestAttemptError QueryResult :=
  self.into_query_result_with_maybe_unknown_coordinator (some request_coordinator)

/-- `NonErrorQueryResponse::into_query_result_with_unknown_coordinator`: the
public unpaged entry point on which the coordinator is explicitly unknown. -/
def NonErrorQueryResponse.into_query_result_with_unknown_coordinator
    (self : NonErrorQueryResponse) :
    Except RequestAttemptError QueryResult :=
  self.into_query_result_with_maybe_unknown_coordinator none

/-- The `NonErrorStartupResponse` union of `request_response.rs`. -/
inductive NonErrorStartupResponse where
  | Ready
  | Authenticate (a : Authenticate)
deriving DecidableEq, Repr

/-- The `NonErrorAuthResponse` union of `request_response.rs`. -/
inductive NonErrorAuthResponse where
  | AuthChallenge (p : AuthChallenge)
  | AuthSuccess (p : AuthSuccess)
deriving DecidableEq, Repr

/-- Helper predicate: the `Result` subtype is `Rows`. -/
def ResultWithDeserializedMetadata.isRows : ResultWithDeserializedMetadata → Bool
  | .Rows _ => true
  | _ => false

/-- Helper predicate: the non-error response is of the `Result` kind. -/
def NonErrorResponseWithDeserializedMetadata.isResult :
    NonErrorResponseWithDeserializedMetadata → Bool
  | .Result _ => true
  | _ => false

/-- Helper characterization: the paged assembler computed case by case. -/
theorem paged_assembler_spec (resp : NonErrorResponseWithDeserializedMetadata)
    (tid : Option Uuid) (w : List String) (co : Option Coordinator) :
    (NonErrorQueryResponse.mk resp tid
        w).into_query_result_and_paging_state_with_maybe_unknown_coordinator co
      = match resp with
        | .Result (.Rows (rs, ps)) => .ok (⟨some rs, co, tid, w⟩, ps)
        | .Result _ => .ok (⟨none, co, tid, w⟩, .NoMorePages)
        | r => .error (.UnexpectedResponse r.to_response_kind) := by
  cases resp with
  | Result r =>
      cases r with
      | Rows p => obtain ⟨rs, ps⟩ := p; cases co <;> rfl
      | SetKeyspace sk => cases co <;> rfl
      | SchemaChange sc => cases co <;> rfl
      | Void => cases co <;> rfl
      | Prepared payload => cases co <;> rfl
  | Ready => cases co <;> rfl
  | Authenticate a => cases co <;> rfl
  | AuthSuccess p => cases co <;> rfl
  | AuthChallenge p => cases co <;> rfl
  | Supported opts => cases co <;> rfl
  | Event e => cases co <;> rfl

/-- Helper characterization: the unpaged assembler computed case by case. -/
theorem unpaged_assembler_spec (resp : NonErrorResponseWithDeserializedMetadata)
    (tid : Option Uuid) (w : List String) (co : Option Coordinator) :
    (NonErrorQueryResponse.mk resp tid
        w).into_query_result_with_maybe_unknown_coordinator co
      = match resp with
        | .Result (.Rows (_, .HasMorePages _)) =>
            .error RequestAttemptError.NonfinishedPagingState
        | .Result (.Rows (rs, .NoMorePages)) => .ok ⟨some rs, co, tid, w⟩
        | .Result _ => .ok ⟨none, co, tid, w⟩
        | r => .error (.UnexpectedResponse r.to_response_kind) := by
  cases resp with
  | Result r =>
      cases r with
      | Rows p =>
          obtain ⟨rs, ps⟩ := p
          cases ps <;> cases co <;> rfl
      | SetKeyspace sk => cases co <;> rfl
      | SchemaChange sc => cases co <;> rfl
      | Void => cases co <;> rfl
      | Prepared payload => cases co <;> rfl
  | Ready => cases co <;> rfl
  | Authenticate a => cases co <;> rfl
  | AuthSuccess p => cases co <;> rfl
  | AuthChallenge p => cases co <;> rfl
  | Supported opts => cases co <;> rfl
  | Event e => cases co <;> rfl

/-- C2: for every non-error response whose variant is `Result::Rows` with row
set `rs` and pagination cursor `ps`, paged assembly
(`into_query_result_and_paging_state`) succeeds and yields a query result
whose row set is `some rs` together with the cursor `ps` exactly as received,
with no transformation applied to either. -/
theorem rows_paged_assembly_exact (rs : RawRows) (ps : PagingStateResponse)
    (tid : Option Uuid) (w : List String) (c : Coordinator) :
    ∃ qr : QueryResult,
      (NonErrorQueryResponse.mk (.Result (.Rows (rs, ps))) tid
          w).into_query_result_and_paging_state c
        = .ok (qr, ps)
      ∧ qr.raw_metadata_and_rows = some rs :=
  ⟨⟨some rs, some c, tid, w⟩, rfl, rfl⟩

/-- C3: for every non-error response whose variant is a `Result` kind other
than `Rows`, paged assembly succeeds and yields row set `none` and pagination
cursor `NoMorePages`, regardless of the specific subtype. -/
theorem nonrows_paged_assembly (sub : ResultWithDeserializedMetadata)
    (h : sub.isRows = false) (tid : Option Uuid) (w : List String)
    (c : Coordinator) :
    ∃ qr : QueryResult,
      (NonErrorQueryResponse.mk (.Result sub) tid
          w).into_query_result_and_paging_state c
        = .ok (qr, .NoMorePages)
      ∧ qr.raw_metadata_and_rows = none := by
  cases sub with
  | Rows p => exact absurd h (by simp [ResultWithDeserializedMetadata.isRows])
  | SetKeyspace sk => exact ⟨⟨none, some c, tid, w⟩, rfl, rfl⟩
  | SchemaChange sc => exact ⟨⟨none, some c, tid, w⟩, rfl, rfl⟩
  | Void => exact ⟨⟨none, some c, tid, w⟩, rfl, rfl⟩
  | Prepared payload => exact ⟨⟨none, some c, tid, w⟩, rfl, rfl⟩

/-- Witness for C3 at the `SetKeyspace` subtype. -/
theorem nonrows_paged_assembly_witness :
    ∃ qr : QueryResult,
      (NonErrorQueryResponse.mk (.Result (.SetKeyspace ⟨"ks"⟩)) (some 3)
          ["w"]).into_query_result_and_paging_state ⟨"node1"⟩
        = .ok (qr, .NoMorePages)
      ∧ qr.raw_metadata_and_rows = none :=
  nonrows_paged_assembly (.SetKeyspace ⟨"ks"⟩) (by decide) (some 3) ["w"] ⟨"node1"⟩

/-- C4: for every non-error response whose variant is not a `Result` kind at
all, assembly — paged or unpaged, with known or unknown coordinator — fails
with `UnexpectedResponse` carrying exactly the observed response kind. -/
theorem nonresult_assembly_unexpected
    (resp : NonErrorResponseWithDeserializedMetadata) (h : resp.isResult = false)
    (tid : Option Uuid) (w : List String) (co : Option Coordinator) :
    (NonErrorQueryResponse.mk resp tid
        w).into_query_result_and_paging_state_with_maybe_unknown_coordinator co
      = .error (.UnexpectedResponse resp.to_response_kind)
    ∧ (NonErrorQueryResponse.mk resp tid
        w).into_query_result_with_maybe_unknown_coordinator co
      = .error (.UnexpectedResponse resp.to_response_kind) := by
  rw [paged_assembler_spec, unpaged_assembler_spec]
  cases resp with
  | Result r =>
      exact absurd h (by simp [NonErrorResponseWithDeserializedMetadata.isResult])
  | Ready => exact ⟨rfl, rfl⟩
  | Authenticate a => exact ⟨rfl, rfl⟩
  | AuthSuccess p => exact ⟨rfl, rfl⟩
  | AuthChallenge p => exact ⟨rfl, rfl⟩
  | Supported opts => exact ⟨rfl, rfl⟩
  | Event e => exact ⟨rfl, rfl⟩

/-- Witness for C4 at a `Ready` response with unknown coordinator. -/
theorem nonresult_assembly_unexpected_witness :
    (NonErrorQueryResponse.mk .Ready none
        []).into_query_result_and_paging_state_with_maybe_unknown_coordinator none
      = .error (.UnexpectedResponse .Ready)
    ∧ (NonErrorQueryResponse.mk .Ready none
        []).into_query_result_with_maybe_unknown_coordinator none
      = .error (.UnexpectedResponse .Ready) :=
  nonresult_assembly_unexpected .Ready (by decide) none [] none

/-- C1: for every non-error response and optional coordinator, the unpaged
assembler fails with `NonfinishedPagingState` if and only if the pagination
cursor produced by paged assembly is `HasMorePages`; when the cursor is
`NoMorePages` it succeeds and returns the assembled query result unchanged. -/
theorem unpaged_guard_iff (self : NonErrorQueryResponse) (co : Option Coordinator) :
    (self.into_query_result_with_maybe_unknown_coordinator co
        = .error RequestAttemptError.NonfinishedPagingState
      ↔ ∃ qr tok,
          self.into_query_result_and_paging_state_with_maybe_unknown_coordinator co
            = .ok (qr, .HasMorePages tok))
    ∧ ∀ qr,
        self.into_query_result_and_paging_state_with_maybe_unknown_coordinator co
          = .ok (qr, .NoMorePages) →
        self.into_query_result_with_maybe_unknown_coordinator co = .ok qr := by
  obtain ⟨resp, tid, w⟩ := self
  rw [paged_assembler_spec, unpaged_assembler_spec]
  cases resp with
  | Result r =>
      cases r with
      | Rows p => obtain ⟨rs, ps⟩ := p; cases ps <;> simp
      | SetKeyspace sk => simp
      | SchemaChange sc => simp
      | Void => simp
      | Prepared payload => simp
  | Ready => simp
  | Authenticate a => simp
  | AuthSuccess p => simp
  | AuthChallenge p => simp
  | Supported opts => simp
  | Event e => simp

/-- Witness for C1: a finished rows response passes the guard unchanged. -/
theorem unpaged_guard_iff_witness :
    (NonErrorQueryResponse.mk (.Result (.Rows (⟨[1, 2]⟩, .NoMorePages))) (some 7)
        ["warn"]).into_query_result_with_maybe_unknown_coordinator (some ⟨"node1"⟩)
      = .ok ⟨some ⟨[1, 2]⟩, some ⟨"node1"⟩, some 7, ["warn"]⟩ :=
  (unpaged_guard_iff
      ⟨.Result (.Rows (⟨[1, 2]⟩, .NoMorePages)), some 7, ["warn"]⟩
      (some ⟨"node1"⟩)).2
    ⟨some ⟨[1, 2]⟩, some ⟨"node1"⟩, some 7, ["warn"]⟩ rfl

/-- C5: `as_schema_change` returns a payload iff the variant is exactly
`Result::SchemaChange`, and `as_set_keyspace` returns a payload iff the
variant is exactly `Result::SetKeyspace`; every other variant yields `none`
(both are total Lean functions, so they can neither fail nor mutate). -/
theorem extractor_projections (self : NonErrorQueryResponse) :
    (∀ sc, self.as_schema_change = some sc ↔
        self.response = .Result (.SchemaChange sc))
    ∧ ∀ sk, self.as_set_keyspace = some sk ↔
        self.response = .Result (.SetKeyspace sk) := by
  obtain ⟨resp, tid, w⟩ := self
  refine ⟨fun sc => ?_, fun sk => ?_⟩
  all_goals
    cases resp with
    | Result r =>
        cases r <;>
          simp [NonErrorQueryResponse.as_schema_change,
            NonErrorQueryResponse.as_set_keyspace]
    | Ready =>
        simp [NonErrorQueryResponse.as_schema_change,
          NonErrorQueryResponse.as_set_keyspace]
    | Authenticate a =>
        simp [NonErrorQueryResponse.as_schema_change,
          NonErrorQueryResponse.as_set_keyspace]
    | AuthSuccess p =>
        simp [NonErrorQueryResponse.as_schema_change,
          NonErrorQueryResponse.as_set_keyspace]
    | AuthChallenge p =>
        simp [NonErrorQueryResponse.as_schema_change,
          NonErrorQueryResponse.as_set_keyspace]
    | Supported opts =>
        simp [NonErrorQueryResponse.as_schema_change,
          NonErrorQueryResponse.as_set_keyspace]
    | Event e =>
        simp [NonErrorQueryResponse.as_schema_change,
          NonErrorQueryResponse.as_set_keyspace]

/-- Witness for C5: a schema-change response projects to its payload. -/
theorem extractor_projections_witness :
    (NonErrorQueryResponse.mk (.Result (.SchemaChange ⟨"created"⟩)) none
        []).as_schema_change = some ⟨"created"⟩ :=
  ((extractor_projections
        ⟨.Result (.SchemaChange ⟨"created"⟩), none, []⟩).1 ⟨"created"⟩).mpr rfl

/-- C6: classification fails with a `ServerError` carrying the
server-reported code and message exactly when the envelope's response tag is
`Error`, and otherwise succeeds with the non-error response, tracing id and
warnings carried over. -/
theorem classification_spec (self : QueryResponse) :
    (∀ code msg, self.response = .Error ⟨code, msg⟩ →
        self.into_non_error_query_response = .error (.ServerError code msg))
    ∧ ∀ r, self.response = .NonError r →
        self.into_non_error_query_response
          = .ok ⟨r, self.tracing_id, self.warnings⟩ := by
  obtain ⟨resp, tid, w, p⟩ := self
  constructor
  · rintro code msg rfl
    rfl
  · rintro r rfl
    rfl

/-- Witness for C6: a server error envelope classifies to `ServerError`. -/
theorem classification_spec_witness :
    (QueryResponse.mk (.Error ⟨4097, "overloaded"⟩) none [] none
        ).into_non_error_query_response
      = .error (.ServerError 4097 "overloaded") :=
  (classification_spec ⟨.Error ⟨4097, "overloaded"⟩, none, [], none⟩).1
    4097 "overloaded" rfl

/-- C7: whenever paged assembly succeeds, the coordinator of the produced
query result equals the optional coordinator supplied to assembly — the
known-coordinator path yields that coordinator, the unknown-coordinator path
yields absence, and absence arises on no other path. -/
theorem coordinator_roundtrip (self : NonErrorQueryResponse)
    (co : Option Coordinator) (qr : QueryResult) (ps : PagingStateResponse)
    (h : self.into_query_result_and_paging_state_with_maybe_unknown_coordinator co
      = .ok (qr, ps)) :
    qr.request_coordinator = co := by
  obtain ⟨resp, tid, w⟩ := self
  rw [paged_assembler_spec] at h
  cases resp with
  | Result r =>
      cases r with
      | Rows p =>
          obtain ⟨rs, ps'⟩ := p
          injection h with h1
          injection h1 with ha hb
          subst ha
          rfl
      | SetKeyspace sk =>
          injection h with h1
          injection h1 with ha hb
          subst ha
          rfl
      | SchemaChange sc =>
          injection h with h1
          injection h1 with ha hb
          subst ha
          rfl
      | Void =>
          injection h with h1
          injection h1 with ha hb
          subst ha
          rfl
      | Prepared payload =>
          injection h with h1
          injection h1 with ha hb
          subst ha
          rfl
  | Ready => exact Except.noConfusion h
  | Authenticate a => exact Except.noConfusion h
  | AuthSuccess p => exact Except.noConfusion h
  | AuthChallenge p => exact Except.noConfusion h
  | Supported opts => exact Except.noConfusion h
  | Event e => exact Except.noConfusion h

/-- Witness for C7: the unknown-coordinator path yields an absent
coordinator. -/
theorem coordinator_roundtrip_witness :
    (QueryResult.mk (some ⟨[]⟩) none none []).request_coordinator
      = (none : Option Coordinator) :=
  coordinator_roundtrip ⟨.Result (.Rows (⟨[]⟩, .NoMorePages)), none, []⟩ none
    ⟨some ⟨[]⟩, none, none, []⟩ .NoMorePages rfl

/-- C8: the known-coordinator and unknown-coordinator unpaged entry points
both reduce to the shared assembler-and-guard pipeline, fail with the same
error on the same inputs, and on success produce query results agreeing on
every field except the coordinator. -/
theorem entry_points_agree (self : NonErrorQueryResponse) (c : Coordinator) :
    (self.into_query_result c
        = self.into_query_result_with_maybe_unknown_coordinator (some c)
      ∧ self.into_query_result_with_unknown_coordinator
        = self.into_query_result_with_maybe_unknown_coordinator none)
    ∧ (∀ e, self.into_query_result c = .error e
        ↔ self.into_query_result_with_unknown_coordinator = .error e)
    ∧ ∀ qr1 qr2, self.into_query_result c = .ok qr1 →
        self.into_query_result_with_unknown_coordinator = .ok qr2 →
        qr1.raw_metadata_and_rows = qr2.raw_metadata_and_rows
          ∧ qr1.tracing_id = qr2.tracing_id
          ∧ qr1.warnings = qr2.warnings
          ∧ qr1.request_coordinator = some c
          ∧ qr2.request_coordinator = none := by
  obtain ⟨resp, tid, w⟩ := self
  refine ⟨⟨rfl, rfl⟩, ?_, ?_⟩
  all_goals
    simp only [NonErrorQueryResponse.into_query_result,
      NonErrorQueryResponse.into_query_result_with_unknown_coordinator,
      unpaged_assembler_spec]
    cases resp with
    | Result r =>
        cases r with
        | Rows p => obtain ⟨rs, ps⟩ := p; cases ps <;> simp
        | SetKeyspace sk => simp
        | SchemaChange sc => simp
        | Void => simp
        | Prepared payload => simp
    | Ready => simp
    | Authenticate a => simp
    | AuthSuccess p => simp
    | AuthChallenge p => simp
    | Supported opts => simp
    | Event e => simp

/-- Witness for C8: on a finished rows response the two entry points agree on
the row set. -/
theorem entry_points_agree_witness :
    (some (RawRows.mk [9]) : Option RawRows) = some ⟨[9]⟩
      ∧ (some 1 : Option Uuid) = some 1
      ∧ (["a"] : List String) = ["a"]
      ∧ (some (Coordinator.mk "n") : Option Coordinator) = some ⟨"n"⟩
      ∧ (none : Option Coordinator) = none :=
  (entry_points_agree ⟨.Result (.Rows (⟨[9]⟩, .NoMorePages)), some 1, ["a"]⟩
      ⟨"n"⟩).2.2
    ⟨some ⟨[9]⟩, some ⟨"n"⟩, some 1, ["a"]⟩
    ⟨some ⟨[9]⟩, none, some 1, ["a"]⟩ rfl rfl

/-- C9: whenever paged assembly succeeds, the tracing id and the warnings of
the produced query result are exactly those of the input response, unchanged
in value and order. -/
theorem tracing_warnings_passthrough (self : NonErrorQueryResponse)
    (co : Option Coordinator) (qr : QueryResult) (ps : PagingStateResponse)
    (h : self.into_query_result_and_paging_state_with_maybe_unknown_coordinator co
      = .ok (qr, ps)) :
    qr.tracing_id = self.tracing_id ∧ qr.warnings = self.warnings := by
  obtain ⟨resp, tid, w⟩ := self
  rw [paged_assembler_spec] at h
  cases resp with
  | Result r =>
      cases r with
      | Rows p =>
          obtain ⟨rs, ps'⟩ := p
          injection h with h1
          injection h1 with ha hb
          subst ha
          exact ⟨rfl, rfl⟩
      | SetKeyspace sk =>
          injection h with h1
          injection h1 with ha hb
          subst ha
          exact ⟨rfl, rfl⟩
      | SchemaChange sc =>
          injection h with h1
          injection h1 with ha hb
          subst ha
          exact ⟨rfl, rfl⟩
      | Void =>
          injection h with h1
          injection h1 with ha hb
          subst ha
          exact ⟨rfl, rfl⟩
      | Prepared payload =>
          injection h with h1
          injection h1 with ha hb
          subst ha
          exact ⟨rfl, rfl⟩
  | Ready => exact Except.noConfusion h
  | Authenticate a => exact Except.noConfusion h
  | AuthSuccess p => exact Except.noConfusion h
  | AuthChallenge p => exact Except.noConfusion h
  | Supported opts => exact Except.noConfusion h
  | Event e => exact Except.noConfusion h

/-- Witness for C9: tracing id and warnings of a void result pass through. -/
theorem tracing_warnings_passthrough_witness :
    (QueryResult.mk none (some ⟨"n2"⟩) (some 42) ["hot partition"]).tracing_id
        = (NonErrorQueryResponse.mk (.Result .Void) (some 42)
            ["hot partition"]).tracing_id
      ∧ (QueryResult.mk none (some ⟨"n2"⟩) (some 42) ["hot partition"]).warnings
        = (NonErrorQueryResponse.mk (.Result .Void) (some 42)
            ["hot partition"]).warnings :=
  tracing_warnings_passthrough
    ⟨.Result .Void, some 42, ["hot partition"]⟩ (some ⟨"n2"⟩)
    ⟨none, some ⟨"n2"⟩, some 42, ["hot partition"]⟩ .NoMorePages rfl

/-- C10: classification is independent of the envelope's custom payload, and
the produced `NonErrorQueryResponse` carries only the classified response, the
tracing id and the warnings — the custom payload is dropped. -/
theorem classification_drops_custom_payload
    (resp : ResponseWithDeserializedMetadata) (tid : Option Uuid)
    (w : List String) (p q : Option (List (String × Bytes))) :
    (QueryResponse.mk resp tid w p).into_non_error_query_response
      = (QueryResponse.mk resp tid w q).into_non_error_query_response
    ∧ ∀ ner, (QueryResponse.mk resp tid w p).into_non_error_query_response
        = .ok ner →
      ner.tracing_id = tid ∧ ner.warnings = w
        ∧ resp.into_non_error_response = .ok ner.response := by
  cases resp with
  | Error e => exact ⟨rfl, fun ner h => Except.noConfusion h⟩
  | NonError r =>
      refine ⟨rfl, fun ner h => ?_⟩
      injection h with h1
      subst h1
      exact ⟨rfl, rfl, rfl⟩

/-- Witness for C10: two envelopes differing only in custom payload classify
to the same carried-over fields. -/
theorem classification_drops_custom_payload_witness :
    (NonErrorQueryResponse.mk .Ready (some 5) ["x"]).tracing_id = some 5
      ∧ (NonErrorQueryResponse.mk .Ready (some 5) ["x"]).warnings = ["x"]
      ∧ (ResponseWithDeserializedMetadata.NonError .Ready).into_non_error_response
        = .ok (NonErrorQueryResponse.mk .Ready (some 5) ["x"]).response :=
  (classification_drops_custom_payload (.NonError .Ready) (some 5) ["x"]
      (some [("k", [1])]) none).2 ⟨.Ready, some 5, ["x"]⟩ rfl

end ScyllaRR
